import Mathlib

/-!
# Verification of the serverless ETL pipeline (`src/cloud_functions.py`)

A shallow embedding of the `etl_pipeline` cloud function: the five-file
loader, the fact aggregation (groupby / agg / left merge / projection,
lines 54–75), the time-dimension derivation (lines 79–87), the star-schema
assembly (lines 91–98) and the top-level error handling (lines 132–145).

Tables are lists of rows.  Numeric measure cells are `Option ℚ` — `none`
stands for a missing value (pandas `NaN`); pandas `sum` skips missing
values and `mean` divides by the count of present values only.  Date cells
are `Option Date` — `none` stands for an empty cell, which `pd.to_datetime`
turns into `NaT` and `dropna` removes.
-/

/-- A calendar date, the result of `pd.to_datetime` on a non-empty date
string (year, month, day of a Gregorian calendar). -/
structure Date where
  year : Nat
  month : Nat
  day : Nat
deriving DecidableEq, Repr

/-- Chronological order on dates: lexicographic on (year, month, day),
matching the order of the underlying pandas timestamps. -/
instance : LinearOrder Date :=
  LinearOrder.lift' (fun d => toLex (d.year, toLex (d.month, d.day))) (by
    intro a b h
    cases a; cases b
    simpa [Prod.ext_iff] using congrArg ofLex h)

/-- A date representable by a pandas `Timestamp` (datetime64[ns] covers the
years 1677–2262) with calendar-shaped month and day fields. -/
def Date.Valid (d : Date) : Prop :=
  1 ≤ d.month ∧ d.month ≤ 12 ∧ 1 ≤ d.day ∧ d.day ≤ 31 ∧
    1677 ≤ d.year ∧ d.year ≤ 2262

instance (d : Date) : Decidable d.Valid := by unfold Date.Valid; infer_instance

/-- A scalar cell of a table. -/
inductive Value where
  | str (s : String)
  | num (q : ℚ)
  | date (d : Date)
  | null
deriving DecidableEq, Repr

/-- A numeric cell: a missing value serialises as null (pandas `NaN`). -/
def optNum : Option ℚ → Value
  | some q => Value.num q
  | none => Value.null

/-- A date cell: a missing value serialises as null (pandas `NaT`). -/
def optDate : Option Date → Value
  | some d => Value.date d
  | none => Value.null

/-- A raw table as loaded by `pd.read_csv`: rows in file order, each row an
ordered list of (column name, cell) pairs. -/
abbrev RawTable := List (List (String × Value))

/-- One row of `Sales.csv` (§3 SalesRecord): natural keys, the two date
columns, and the three numeric measure columns. -/
structure SalesRecord where
  salesID : String
  productID : String
  customerID : String
  campaignID : String
  deliveryID : String
  orderDate : Option Date
  deliveryDate : Option Date
  saleAmount : Option ℚ
  discountApplied : Option ℚ
  deliveryFee : Option ℚ
deriving DecidableEq, Repr

/-- One row of `sales_agg` (lines 54–58). `TotalSaleAmount` and
`TotalDeliveryFee` come from pandas `sum`, which never yields `NaN`
(missing values are skipped, an empty sum is 0); `TotalDiscountApplied`
comes from pandas `mean`, which is `NaN` when the group has no present
`DiscountApplied` value. -/
structure AggRow where
  salesID : String
  totalSaleAmount : ℚ
  totalDiscountApplied : Option ℚ
  totalDeliveryFee : ℚ
deriving DecidableEq, Repr

/-- The `SalesID` group of key `k`: the sales records of one sale, in input
row order. -/
def salesGroup (sales : List SalesRecord) (k : String) : List SalesRecord :=
  sales.filter (fun r => r.salesID = k)

/-- The aggregate `sales_df.groupby("SalesID").agg(...)` computes for the
group of key `k`: sum of `SaleAmount` and of `DeliveryFee` skipping missing
values, mean of `DiscountApplied` over the present values only. -/
def aggFor (sales : List SalesRecord) (k : String) : AggRow :=
  let grp := salesGroup sales k
  let ds := grp.filterMap (fun r => r.discountApplied)
  { salesID := k
    totalSaleAmount := (grp.map (fun r => r.saleAmount.getD 0)).sum
    totalDiscountApplied :=
      if ds.isEmpty then none else some (ds.sum / (ds.length : ℚ))
    totalDeliveryFee := (grp.map (fun r => r.deliveryFee.getD 0)).sum }

/-- Lines 54–58: the aggregate table, one row per distinct `SalesID` of the
sales table (first-occurrence order; the order of this intermediate table
does not reach the output, a left merge follows the left table's order). -/
def sales_agg (sales : List SalesRecord) : List AggRow :=
  ((sales.map (fun r => r.salesID)).dedup).map (aggFor sales)

/-- One row of `sales_df.merge(sales_agg, on="SalesID", how="left")`: the
original record with the matched aggregate columns, which are missing
(`NaN`) when no aggregate row matched. -/
structure MergedRow where
  src : SalesRecord
  totalSaleAmount : Option ℚ
  totalDiscountApplied : Option ℚ
  totalDeliveryFee : Option ℚ
deriving DecidableEq, Repr

/-- pandas left merge on `SalesID` (line 62): every left row is paired with
every matching right row, in left-table order; a left row with no match is
kept once with null aggregate columns. -/
def merge_left (sales : List SalesRecord) (agg : List AggRow) : List MergedRow :=
  sales.flatMap (fun r =>
    let ms := agg.filter (fun a => a.salesID = r.salesID)
    if ms.isEmpty then [⟨r, none, none, none⟩]
    else ms.map (fun a =>
      ⟨r, some a.totalSaleAmount, a.totalDiscountApplied, some a.totalDeliveryFee⟩))

/-- One row of `sales_fact_table` (lines 63–75): the projected column set. -/
structure FactRow where
  salesID : String
  productID : String
  customerID : String
  campaignID : String
  deliveryID : String
  orderDate : Option Date
  totalSaleAmount : Option ℚ
  totalDiscountApplied : Option ℚ
  totalDeliveryFee : Option ℚ
deriving DecidableEq, Repr

/-- Lines 63–75: keep the key and date columns of the sales row and the
three aggregate columns; `SaleAmount`, `DiscountApplied`, `DeliveryFee` and
`DeliveryDate` are dropped. -/
def projectFact (m : MergedRow) : FactRow :=
  { salesID := m.src.salesID
    productID := m.src.productID
    customerID := m.src.customerID
    campaignID := m.src.campaignID
    deliveryID := m.src.deliveryID
    orderDate := m.src.orderDate
    totalSaleAmount := m.totalSaleAmount
    totalDiscountApplied := m.totalDiscountApplied
    totalDeliveryFee := m.totalDeliveryFee }

/-- Lines 54–75: the fact table of one run. -/
def sales_fact_table (sales : List SalesRecord) : List FactRow :=
  (merge_left sales (sales_agg sales)).map projectFact

/-- The fact row the pipeline produces from one sales record: its keys and
order date together with its `SalesID` group's aggregates. -/
def factOf (sales : List SalesRecord) (s : SalesRecord) : FactRow :=
  projectFact ⟨s, some (aggFor sales s.salesID).totalSaleAmount,
    (aggFor sales s.salesID).totalDiscountApplied,
    some (aggFor sales s.salesID).totalDeliveryFee⟩

/-- The column names of the fact table, in projection order (lines 63–75). -/
def fact_columns : List String :=
  ["SalesID", "ProductID", "CustomerID", "CampaignID", "DeliveryID",
   "OrderDate", "TotalSaleAmount", "TotalDiscountApplied", "TotalDeliveryFee"]

/-- A fact row as serialised: cells in projection order. -/
def FactRow.cells (f : FactRow) : List (String × Value) :=
  [("SalesID", Value.str f.salesID),
   ("ProductID", Value.str f.productID),
   ("CustomerID", Value.str f.customerID),
   ("CampaignID", Value.str f.campaignID),
   ("DeliveryID", Value.str f.deliveryID),
   ("OrderDate", optDate f.orderDate),
   ("TotalSaleAmount", optNum f.totalSaleAmount),
   ("TotalDiscountApplied", optNum f.totalDiscountApplied),
   ("TotalDeliveryFee", optNum f.totalDeliveryFee)]

/-- The decimal digit character for `d % 10`. -/
def digitChar (d : Nat) : Char := Char.ofNat (48 + d % 10)

/-- The digit a decimal digit character stands for; `none` otherwise. -/
def charDigit (c : Char) : Option Nat :=
  if 48 ≤ c.toNat ∧ c.toNat ≤ 57 then some (c.toNat - 48) else none

/-- The last `w` decimal digits of `n`, most significant first — the
zero-padded width-`w` rendering of `n` when `n < 10 ^ w`. -/
def natDigits : Nat → Nat → List Nat
  | 0, _ => []
  | w + 1, n => natDigits w (n / 10) ++ [n % 10]

/-- The number a big-endian digit list denotes. -/
def digitsVal (ds : List Nat) : Nat := ds.foldl (fun a d => 10 * a + d) 0

/-- Line 83, `strftime("%Y%m%d")`: the zero-padded `YYYYMMDD` key (faithful
on the whole pandas `Timestamp` range, whose years have four digits). -/
def Date.timeID (d : Date) : String :=
  ⟨(natDigits 4 d.year ++ natDigits 2 d.month ++ natDigits 2 d.day).map digitChar⟩

/-- The digits a character list spells, `none` on a non-digit. -/
def parseDigits : List Char → Option (List Nat)
  | [] => some []
  | c :: cs =>
    match charDigit c, parseDigits cs with
    | some d, some ds => some (d :: ds)
    | _, _ => none

/-- Reading a `TimeID` back as a zero-padded `YYYYMMDD` date. -/
def parseTimeID (s : String) : Option Date :=
  let cs := s.toList
  if cs.length = 8 then
    match parseDigits cs with
    | some ds =>
        some ⟨digitsVal (ds.take 4), digitsVal ((ds.drop 4).take 2),
          digitsVal (ds.drop 6)⟩
    | none => none
  else none

/-- Sakamoto's day-of-week formula for the Gregorian calendar: 0 = Sunday. -/
def dayOfWeek (y m d : Nat) : Nat :=
  let t := [0, 3, 2, 5, 0, 3, 5, 1, 4, 6, 2, 4]
  let y' := if m < 3 then y - 1 else y
  (y' + y' / 4 - y' / 100 + y' / 400 + t.getD (m - 1) 0 + d) % 7

/-- Line 87, `dt.day_name()`: the English weekday name. -/
def Date.weekDayName (d : Date) : String :=
  (["Sunday", "Monday", "Tuesday", "Wednesday", "Thursday", "Friday",
    "Saturday"]).getD (dayOfWeek d.year d.month d.day) "Sunday"

/-- One row of the time dimension (lines 82–87), columns in table order. -/
structure TimeDimRow where
  date : Date
  timeID : String
  year : Nat
  month : Nat
  day : Nat
  weekDay : String
deriving DecidableEq, Repr

/-- A time-dimension row as serialised: cells in column order. -/
def TimeDimRow.cells (r : TimeDimRow) : List (String × Value) :=
  [("Date", Value.date r.date),
   ("TimeID", Value.str r.timeID),
   ("Year", Value.num (r.year : ℚ)),
   ("Month", Value.num (r.month : ℚ)),
   ("Day", Value.num (r.day : ℚ)),
   ("WeekDay", Value.str r.weekDay)]

/-- Lines 79–81: concatenate the `OrderDate` and `DeliveryDate` columns,
drop the missing values (`dropna`), deduplicate (`unique`). -/
def unique_dates (sales : List SalesRecord) : List Date :=
  ((sales.map (fun r => r.orderDate) ++
    sales.map (fun r => r.deliveryDate)).filterMap id).dedup

/-- Line 82, `sorted(unique_dates)`. -/
def sorted_dates (sales : List SalesRecord) : List Date :=
  List.insertionSort (fun a b => a ≤ b) (unique_dates sales)

/-- Lines 83–87: the derived columns of one time-dimension row. -/
def mkTimeRow (d : Date) : TimeDimRow :=
  { date := d, timeID := d.timeID, year := d.year, month := d.month,
    day := d.day, weekDay := d.weekDayName }

/-- Lines 79–87: the time dimension of one run. -/
def time_dim (sales : List SalesRecord) : List TimeDimRow :=
  (sorted_dates sales).map mkTimeRow

/-- The contents of the triggering bucket, as the loader sees it: for each
required file, `none` when the blob is absent, otherwise its parsed
content.  `Sales.csv` parses to the typed records the transformation
reads; the four dimension files stay raw tables, passed through. -/
structure Bucket where
  customer : Option RawTable
  product : Option RawTable
  sales : Option (List SalesRecord)
  marketCampaign : Option RawTable
  delivery : Option RawTable

/-- The errors the run can raise. -/
inductive EtlError where
  | missingInput (file : String)
deriving DecidableEq, Repr

/-- Lines 20–26: the required input files, in the order the loader checks
them. -/
def file_paths : List String :=
  ["Customer.csv", "Product.csv", "Sales.csv", "MarketCampaign.csv",
   "Delivery.csv"]

/-- `blob.exists()` (line 38) for each required file name. -/
def Bucket.has (b : Bucket) : String → Bool
  | "Customer.csv" => b.customer.isSome
  | "Product.csv" => b.product.isSome
  | "Sales.csv" => b.sales.isSome
  | "MarketCampaign.csv" => b.marketCampaign.isSome
  | "Delivery.csv" => b.delivery.isSome
  | _ => false

/-- Lines 91–98: the assembled output, a mapping from fixed output names to
serialisable tables; the four dimension tables pass through unchanged. -/
def output_files (customers products campaigns deliveries : RawTable)
    (fact : List FactRow) (time : List TimeDimRow) : List (String × RawTable) :=
  [("Customer_Dimension", customers),
   ("Product_Dimension", products),
   ("Sales_Fact", fact.map FactRow.cells),
   ("Time_Dimension", time.map TimeDimRow.cells),
   ("Campaign_Dimension", campaigns),
   ("Delivery_Dimension", deliveries)]

/-- The body of the `try` block (lines 14–129): check the required files in
order — the loop raises `FileNotFoundError` (the spec's `MissingInputError`)
on the first absent file, before any transformation — then transform and
assemble the output dataset. -/
def runETL (b : Bucket) : Except EtlError (List (String × RawTable)) :=
  match b.customer with
  | none => Except.error (EtlError.missingInput "Customer.csv")
  | some customers =>
  match b.product with
  | none => Except.error (EtlError.missingInput "Product.csv")
  | some products =>
  match b.sales with
  | none => Except.error (EtlError.missingInput "Sales.csv")
  | some sales =>
  match b.marketCampaign with
  | none => Except.error (EtlError.missingInput "MarketCampaign.csv")
  | some campaigns =>
  match b.delivery with
  | none => Except.error (EtlError.missingInput "Delivery.csv")
  | some deliveries =>
    Except.ok (output_files customers products campaigns deliveries
      (sales_fact_table sales) (time_dim sales))

instance instDecEqRawTable : DecidableEq RawTable := inferInstance

instance instDecEqNamedTables : DecidableEq (List (String × RawTable)) :=
  inferInstance

instance instDecEqArtifact :
    DecidableEq (Option (String × List (String × RawTable))) := inferInstance

/-- What one invocation leaves behind: the artifact uploaded to the bucket
(line 126), if any, and the error printed by the `except` block (line 133),
if any. -/
structure RunEffects where
  uploaded : Option (String × List (String × RawTable))
  loggedError : Option EtlError
deriving DecidableEq

/-- Lines 10–145, the entry point: on success the zip named
`etl_output.zip` is uploaded; the `except` block catches every raised
error, prints it and falls through, so the function itself always returns
normally (never an `Except.error`) to its caller. -/
def etl_pipeline (b : Bucket) : Except EtlError RunEffects :=
  match runETL b with
  | Except.ok out =>
      Except.ok { uploaded := some ("etl_output.zip", out), loggedError := none }
  | Except.error e =>
      Except.ok { uploaded := none, loggedError := some e }

/-- First line item of sale 1 in the worked example of spec §8. -/
def exRec1 : SalesRecord :=
  { salesID := "1", productID := "P1", customerID := "C1", campaignID := "K1"
    deliveryID := "D1", orderDate := some ⟨2024, 1, 2⟩
    deliveryDate := some ⟨2024, 1, 1⟩, saleAmount := some 100
    discountApplied := some (1 / 10), deliveryFee := some 5 }

/-- Second line item of sale 1 (undelivered: empty `DeliveryDate`). -/
def exRec2 : SalesRecord :=
  { salesID := "1", productID := "P2", customerID := "C1", campaignID := "K1"
    deliveryID := "D1", orderDate := some ⟨2024, 1, 1⟩, deliveryDate := none
    saleAmount := some 50, discountApplied := some (1 / 5)
    deliveryFee := some 5 }

/-- The single line item of sale 2. -/
def exRec3 : SalesRecord :=
  { salesID := "2", productID := "P3", customerID := "C2", campaignID := "K2"
    deliveryID := "D2", orderDate := some ⟨2024, 1, 1⟩, deliveryDate := none
    saleAmount := some 200, discountApplied := some 0, deliveryFee := some 10 }

/-- The sales table of the worked example in spec §8. -/
def exampleSales : List SalesRecord := [exRec1, exRec2, exRec3]

/-- A line item of sale 1 with all measures present. -/
def nRecA : SalesRecord :=
  { salesID := "1", productID := "P1", customerID := "C1", campaignID := "K1"
    deliveryID := "D1", orderDate := some ⟨2024, 1, 2⟩, deliveryDate := none
    saleAmount := some 100, discountApplied := some (1 / 10)
    deliveryFee := some 5 }

/-- A line item of sale 1 with missing `SaleAmount` and `DiscountApplied`. -/
def nRecB : SalesRecord :=
  { salesID := "1", productID := "P2", customerID := "C1", campaignID := "K1"
    deliveryID := "D1", orderDate := some ⟨2024, 1, 1⟩, deliveryDate := none
    saleAmount := none, discountApplied := none, deliveryFee := some 5 }

/-- A sales table with null measure cells inside the sale-1 group. -/
def exampleSalesNull : List SalesRecord := [nRecA, nRecB, exRec3]

/-- A bucket holding all five required files. -/
def exampleBucket : Bucket :=
  { customer := some [[("CustomerID", Value.str "C1")]]
    product := some [[("ProductID", Value.str "P1")]]
    sales := some exampleSales
    marketCampaign := some [[("CampaignID", Value.str "K1")]]
    delivery := some [[("DeliveryID", Value.str "D1")]] }

/-- The same bucket with `Sales.csv` absent. -/
def exampleBucketMissing : Bucket := { exampleBucket with sales := none }

/-! ## Structure of the fact table -/

theorem filter_eq_singleton_of_nodup {α : Type*} [DecidableEq α]
    {l : List α} {c : α} (hn : l.Nodup) (hc : c ∈ l) :
    l.filter (fun a => a = c) = [c] := by
  induction l with
  | nil => cases hc
  | cons x xs ih =>
    rcases List.nodup_cons.mp hn with ⟨hx, hxs⟩
    rcases List.mem_cons.mp hc with h | h
    · subst h
      have hnil : xs.filter (fun a => a = c) = [] := by
        refine List.filter_eq_nil_iff.mpr (fun a ha => ?_)
        simp only [decide_eq_true_eq]
        exact fun e => hx (e ▸ ha)
      simp [List.filter_cons, hnil]
    · have hxc : ¬(x = c) := fun e => hx (e ▸ h)
      simp [List.filter_cons, hxc, ih hxs h]

theorem flatMap_eq_map_of_forall {α β : Type*} (f : α → List β) (g : α → β)
    (l : List α) (h : ∀ r ∈ l, f r = [g r]) : l.flatMap f = l.map g := by
  induction l with
  | nil => rfl
  | cons x xs ih =>
    rw [List.flatMap_cons, List.map_cons, h x (List.mem_cons_self x xs),
      ih (fun r hr => h r (List.mem_cons_of_mem _ hr)), List.singleton_append]

/-- The aggregate table holds exactly one row for the `SalesID` of each
sales record: the merge of line 62 matches every row exactly once. -/
theorem sales_agg_filter (sales : List SalesRecord) (r : SalesRecord)
    (hr : r ∈ sales) :
    (sales_agg sales).filter (fun a => a.salesID = r.salesID) =
      [aggFor sales r.salesID] := by
  unfold sales_agg
  rw [List.filter_map]
  have hcong :
      ((sales.map (fun x => x.salesID)).dedup).filter
          ((fun a : AggRow => decide (a.salesID = r.salesID)) ∘ aggFor sales) =
        ((sales.map (fun x => x.salesID)).dedup).filter
          (fun k => k = r.salesID) :=
    List.filter_congr (fun k _ => rfl)
  rw [hcong, filter_eq_singleton_of_nodup (List.nodup_dedup _)
    (List.mem_dedup.mpr (List.mem_map_of_mem _ hr)), List.map_cons, List.map_nil]

/-- The broadcast-join characterised: the fact table maps each sales record
to its projected row with its group's aggregates attached. -/
theorem sales_fact_table_eq_map (sales : List SalesRecord) :
    sales_fact_table sales = sales.map (factOf sales) := by
  unfold sales_fact_table merge_left
  rw [flatMap_eq_map_of_forall _
    (fun r => (⟨r, some (aggFor sales r.salesID).totalSaleAmount,
      (aggFor sales r.salesID).totalDiscountApplied,
      some (aggFor sales r.salesID).totalDeliveryFee⟩ : MergedRow)) _
    (fun r hr => by simp only [sales_agg_filter sales r hr]; rfl), List.map_map]
  rfl

/-- C1: For every Sales input table, the fact table produced by the Fact
Aggregator (group by SalesID, aggregate, left-join back, project) has
exactly as many rows as the input Sales table: the broadcast-join preserves
cardinality, dropping no row and duplicating none. -/
theorem fact_table_preserves_cardinality (sales : List SalesRecord) :
    (sales_fact_table sales).length = sales.length := by
  rw [sales_fact_table_eq_map]
  exact List.length_map _ _

/-- C3: For every Sales input table, any two fact rows that share the same
`SalesID` carry identical values in all three aggregate measure columns
`TotalSaleAmount`, `TotalDiscountApplied` and `TotalDeliveryFee`: the
per-group aggregate is broadcast onto every line item of that sale. -/
theorem fact_rows_same_sale_same_aggregates (sales : List SalesRecord)
    {f g : FactRow} (hf : f ∈ sales_fact_table sales)
    (hg : g ∈ sales_fact_table sales) (h : f.salesID = g.salesID) :
    f.totalSaleAmount = g.totalSaleAmount ∧
      f.totalDiscountApplied = g.totalDiscountApplied ∧
      f.totalDeliveryFee = g.totalDeliveryFee := by
  rw [sales_fact_table_eq_map] at hf hg
  obtain ⟨s, _, rfl⟩ := List.mem_map.mp hf
  obtain ⟨t, _, rfl⟩ := List.mem_map.mp hg
  have hk : s.salesID = t.salesID := h
  refine ⟨?_, ?_, ?_⟩ <;> show _ = _ <;> rw [show factOf sales t =
    factOf sales { t with salesID := s.salesID } from by
      cases t; cases hk; rfl] <;> rfl

/-! ## Aggregate measure values -/

theorem sum_map_getD_eq_sum_filterMap {α : Type*} (g : α → Option ℚ)
    (l : List α) (h : ∀ x ∈ l, (g x).isSome) :
    (l.map (fun x => (g x).getD 0)).sum = (l.filterMap g).sum := by
  induction l with
  | nil => rfl
  | cons x xs ih =>
    obtain ⟨a, ha⟩ := Option.isSome_iff_exists.mp (h x (List.mem_cons_self x xs))
    rw [List.map_cons, List.filterMap_cons, ha]
    simp only [Option.getD_some, List.sum_cons]
    rw [ih (fun y hy => h y (List.mem_cons_of_mem _ hy))]

theorem length_filterMap_of_isSome {α β : Type*} (g : α → Option β)
    (l : List α) (h : ∀ x ∈ l, (g x).isSome) :
    (l.filterMap g).length = l.length := by
  induction l with
  | nil => rfl
  | cons x xs ih =>
    obtain ⟨a, ha⟩ := Option.isSome_iff_exists.mp (h x (List.mem_cons_self x xs))
    rw [List.filterMap_cons, ha, List.length_cons, List.length_cons,
      ih (fun y hy => h y (List.mem_cons_of_mem _ hy))]

theorem length_filterMap_eq_countP {α β : Type*} (g : α → Option β)
    (l : List α) :
    (l.filterMap g).length = l.countP (fun a => (g a).isSome) := by
  induction l with
  | nil => rfl
  | cons x xs ih =>
    rw [List.filterMap_cons, List.countP_cons]
    cases hx : g x <;> simp [hx, ih]

/-- C7: For every SalesID group containing null or absent measure values,
the aggregation treats those nulls as zero in the summed measures
`TotalSaleAmount` and `TotalDeliveryFee`, and excludes them from the
denominator of the `TotalDiscountApplied` mean: the mean divides only by
the count of non-null `DiscountApplied` values in the group (and is null
when that count is zero). -/
theorem fact_null_measures (sales : List SalesRecord) {f : FactRow}
    (hf : f ∈ sales_fact_table sales) :
    f.totalSaleAmount = some ((salesGroup sales f.salesID).map
        (fun s => s.saleAmount.getD 0)).sum ∧
    f.totalDeliveryFee = some ((salesGroup sales f.salesID).map
        (fun s => s.deliveryFee.getD 0)).sum ∧
    f.totalDiscountApplied =
      (if ((salesGroup sales f.salesID).filterMap
            (fun s => s.discountApplied)).isEmpty
       then none
       else some (((salesGroup sales f.salesID).filterMap
            (fun s => s.discountApplied)).sum /
          (((salesGroup sales f.salesID).countP
            (fun s => (s.discountApplied).isSome) : Nat) : ℚ))) := by
  rw [sales_fact_table_eq_map] at hf
  obtain ⟨s, hs, rfl⟩ := List.mem_map.mp hf
  refine ⟨rfl, rfl, ?_⟩
  simp only [factOf, projectFact, aggFor]
  rw [length_filterMap_eq_countP]

/-- C2: For every Sales input table and every SalesID group in it, the fact
rows of that group carry `TotalSaleAmount` equal to the sum of the group's
`SaleAmount` values, `TotalDiscountApplied` equal to the arithmetic mean of
the group's `DiscountApplied` values, and `TotalDeliveryFee` equal to the
sum of the group's `DeliveryFee` values (stated for tables whose measure
cells are all present; C7 covers null cells). -/
theorem fact_group_aggregate_values (sales : List SalesRecord) {f : FactRow}
    (hf : f ∈ sales_fact_table sales)
    (hall : ∀ s ∈ sales, (s.saleAmount).isSome ∧ (s.discountApplied).isSome ∧
      (s.deliveryFee).isSome) :
    f.totalSaleAmount = some ((salesGroup sales f.salesID).filterMap
      (fun s => s.saleAmount)).sum ∧
    f.totalDiscountApplied = some (((salesGroup sales f.salesID).filterMap
      (fun s => s.discountApplied)).sum /
      (((salesGroup sales f.salesID).length : Nat) : ℚ)) ∧
    f.totalDeliveryFee = some ((salesGroup sales f.salesID).filterMap
      (fun s => s.deliveryFee)).sum := by
  rw [sales_fact_table_eq_map] at hf
  obtain ⟨s, hs, rfl⟩ := List.mem_map.mp hf
  have hkey : (factOf sales s).salesID = s.salesID := rfl
  rw [hkey]
  have hgrp : ∀ x ∈ salesGroup sales s.salesID, x ∈ sales :=
    fun x hx => (List.mem_filter.mp hx).1
  have hsome : ∀ x ∈ salesGroup sales s.salesID, (x.discountApplied).isSome :=
    fun x hx => (hall x (hgrp x hx)).2.1
  have hsmem : s ∈ salesGroup sales s.salesID :=
    List.mem_filter.mpr ⟨hs, by simp⟩
  have hlen : ((salesGroup sales s.salesID).filterMap
      (fun r => r.discountApplied)).length = (salesGroup sales s.salesID).length :=
    length_filterMap_of_isSome _ _ hsome
  have hne : ¬((salesGroup sales s.salesID).filterMap
      (fun r => r.discountApplied)).isEmpty = true := by
    rw [List.isEmpty_iff_length_eq_zero, hlen]
    exact fun h0 => (List.ne_nil_of_mem hsmem) (List.length_eq_zero.mp h0)
  refine ⟨?_, ?_, ?_⟩
  · show some ((salesGroup sales s.salesID).map
      (fun r => r.saleAmount.getD 0)).sum = _
    rw [sum_map_getD_eq_sum_filterMap _ _
      (fun x hx => (hall x (hgrp x hx)).1)]
  · show (if ((salesGroup sales s.salesID).filterMap
        (fun r => r.discountApplied)).isEmpty then none
      else some (((salesGroup sales s.salesID).filterMap
        (fun r => r.discountApplied)).sum /
        ((((salesGroup sales s.salesID).filterMap
          (fun r => r.discountApplied)).length : Nat) : ℚ))) = _
    rw [if_neg hne, hlen]
  · show some ((salesGroup sales s.salesID).map
      (fun r => r.deliveryFee.getD 0)).sum = _
    rw [sum_map_getD_eq_sum_filterMap _ _
      (fun x hx => (hall x (hgrp x hx)).2.2)]

/-- C9: For every Sales input table, each fact row carries exactly the
column set `SalesID, ProductID, CustomerID, CampaignID, DeliveryID,
OrderDate, TotalSaleAmount, TotalDiscountApplied, TotalDeliveryFee`, in
that order; the raw measure columns `SaleAmount`, `DiscountApplied`,
`DeliveryFee` (and `DeliveryDate`) are discarded from the projection. -/
theorem fact_table_projection_columns (sales : List SalesRecord) :
    (sales_fact_table sales).map (fun f => f.cells.map Prod.fst) =
      List.replicate sales.length fact_columns ∧
    "SaleAmount" ∉ fact_columns ∧ "DiscountApplied" ∉ fact_columns ∧
    "DeliveryFee" ∉ fact_columns ∧ "DeliveryDate" ∉ fact_columns := by
  refine ⟨?_, by decide, by decide, by decide, by decide⟩
  rw [sales_fact_table_eq_map, List.map_map]
  have hconst : ((fun f : FactRow => f.cells.map Prod.fst) ∘ factOf sales) =
      fun _ => fact_columns := rfl
  rw [hconst, List.map_const']

/-! ## The time dimension -/

theorem time_dim_dates_eq (sales : List SalesRecord) :
    (time_dim sales).map (fun r => r.date) = sorted_dates sales := by
  unfold time_dim
  rw [List.map_map]
  have hid : ((fun r : TimeDimRow => r.date) ∘ mkTimeRow) = fun d => d := rfl
  rw [hid, List.map_id']

theorem sorted_dates_sorted (sales : List SalesRecord) :
    (sorted_dates sales).Sorted (fun a b : Date => a ≤ b) :=
  List.sorted_insertionSort _ _

theorem sorted_dates_nodup (sales : List SalesRecord) :
    (sorted_dates sales).Nodup :=
  ((List.perm_insertionSort _ _).nodup_iff).mpr (List.nodup_dedup _)

theorem mem_sorted_dates {sales : List SalesRecord} {d : Date} :
    d ∈ sorted_dates sales ↔
      ∃ s ∈ sales, s.orderDate = some d ∨ s.deliveryDate = some d := by
  unfold sorted_dates unique_dates
  rw [(List.perm_insertionSort _ _).mem_iff, List.mem_dedup, List.mem_filterMap]
  simp only [List.mem_append, List.mem_map, id_eq]
  constructor
  · rintro ⟨o, ⟨s, hs, rfl⟩ | ⟨s, hs, rfl⟩, ho⟩
    · exact ⟨s, hs, Or.inl ho⟩
    · exact ⟨s, hs, Or.inr ho⟩
  · rintro ⟨s, hs, h | h⟩
    · exact ⟨some d, Or.inl ⟨s, hs, h⟩, rfl⟩
    · exact ⟨some d, Or.inr ⟨s, hs, h⟩, rfl⟩

/-- C4: For every Sales input table, the time dimension contains exactly
one row per distinct non-empty, parseable calendar date appearing in the
union of the `OrderDate` and `DeliveryDate` columns (empty cells — `none`,
pandas `NaT` — are dropped silently, not an error), and the rows are
sorted strictly ascending by `Date`, hence without duplicates. -/
theorem time_dim_distinct_sorted (sales : List SalesRecord) :
    ((time_dim sales).map (fun r => r.date)).Sorted (fun a b : Date => a < b) ∧
    ∀ d : Date, (d ∈ (time_dim sales).map (fun r => r.date)) ↔
      ∃ s ∈ sales, s.orderDate = some d ∨ s.deliveryDate = some d := by
  rw [time_dim_dates_eq]
  exact ⟨(sorted_dates_sorted sales).lt_of_le (sorted_dates_nodup sales),
    fun d => mem_sorted_dates⟩

theorem natDigits_length (w : Nat) : ∀ n, (natDigits w n).length = w := by
  induction w with
  | zero => intro n; rfl
  | succ w ih =>
    intro n
    rw [natDigits, List.length_append, ih]
    simp

theorem natDigits_lt_ten (w : Nat) :
    ∀ n, ∀ x ∈ natDigits w n, x < 10 := by
  induction w with
  | zero => intro n x hx; cases hx
  | succ w ih =>
    intro n x hx
    rcases List.mem_append.mp hx with h | h
    · exact ih _ x h
    · rw [List.mem_singleton.mp h]
      exact Nat.mod_lt _ (by omega)

theorem digitsVal_append_one (xs : List Nat) (d : Nat) :
    digitsVal (xs ++ [d]) = 10 * digitsVal xs + d := by
  unfold digitsVal
  rw [List.foldl_append]
  rfl

theorem digitsVal_natDigits (w : Nat) :
    ∀ n, digitsVal (natDigits w n) = n % 10 ^ w := by
  induction w with
  | zero => intro n; simp [natDigits, digitsVal, Nat.mod_one]
  | succ w ih =>
    intro n
    rw [natDigits, digitsVal_append_one, ih, Nat.pow_succ']
    rw [Nat.mod_mul]
    omega

theorem charDigit_digitChar {x : Nat} (h : x < 10) :
    charDigit (digitChar x) = some x := by
  interval_cases x <;> decide

theorem parseDigits_map_digitChar (ds : List Nat)
    (h : ∀ x ∈ ds, x < 10) : parseDigits (ds.map digitChar) = some ds := by
  induction ds with
  | nil => rfl
  | cons x xs ih =>
    rw [List.map_cons, parseDigits,
      charDigit_digitChar (h x (List.mem_cons_self x xs)),
      ih (fun y hy => h y (List.mem_cons_of_mem _ hy))]

/-- `strftime("%Y%m%d")` round-trips on every pandas-representable date:
parsing the `TimeID` of a valid date recovers the date. -/
theorem parseTimeID_timeID {d : Date} (h : d.Valid) :
    parseTimeID d.timeID = some d := by
  obtain ⟨y, m, dd⟩ := d
  obtain ⟨hm1, hm2, hd1, hd2, hy1, hy2⟩ := h
  dsimp only at hm1 hm2 hd1 hd2 hy1 hy2
  have hlt : ∀ x ∈ natDigits 4 y ++ natDigits 2 m ++ natDigits 2 dd, x < 10 := by
    intro x hx
    rcases List.mem_append.mp hx with hx | hx
    · rcases List.mem_append.mp hx with hx | hx
      · exact natDigits_lt_ten 4 y x hx
      · exact natDigits_lt_ten 2 m x hx
    · exact natDigits_lt_ten 2 dd x hx
  have hlen : (((natDigits 4 y ++ natDigits 2 m ++ natDigits 2 dd).map
      digitChar)).length = 8 := by
    rw [List.length_map, List.length_append, List.length_append,
      natDigits_length, natDigits_length, natDigits_length]
  show parseTimeID ⟨(natDigits 4 y ++ natDigits 2 m ++ natDigits 2 dd).map
    digitChar⟩ = _
  unfold parseTimeID
  simp only [String.toList]
  rw [if_pos hlen, parseDigits_map_digitChar _ hlt]
  have htake4 : (natDigits 4 y ++ natDigits 2 m ++ natDigits 2 dd).take 4 =
      natDigits 4 y := by
    rw [List.append_assoc]
    exact List.take_left' (natDigits_length 4 y)
  have hdrop4 : (natDigits 4 y ++ natDigits 2 m ++ natDigits 2 dd).drop 4 =
      natDigits 2 m ++ natDigits 2 dd := by
    rw [List.append_assoc]
    exact List.drop_left' (natDigits_length 4 y)
  have htake2 : (natDigits 2 m ++ natDigits 2 dd).take 2 = natDigits 2 m :=
    List.take_left' (natDigits_length 2 m)
  have hdrop6 : (natDigits 4 y ++ natDigits 2 m ++ natDigits 2 dd).drop 6 =
      natDigits 2 dd := by
    have h64 : (6 : Nat) = 4 + 2 := rfl
    rw [h64, ← List.drop_drop, hdrop4]
    exact List.drop_left' (natDigits_length 2 m)
  show some (Date.mk
      (digitsVal ((natDigits 4 y ++ natDigits 2 m ++ natDigits 2 dd).take 4))
      (digitsVal (((natDigits 4 y ++ natDigits 2 m ++ natDigits 2 dd).drop 4).take 2))
      (digitsVal ((natDigits 4 y ++ natDigits 2 m ++ natDigits 2 dd).drop 6))) =
    some (Date.mk y m dd)
  rw [htake4, hdrop4, htake2, hdrop6, digitsVal_natDigits,
    digitsVal_natDigits, digitsVal_natDigits,
    Nat.mod_eq_of_lt (by omega), Nat.mod_eq_of_lt (by omega),
    Nat.mod_eq_of_lt (by omega)]

theorem mem_time_dim {sales : List SalesRecord} {r : TimeDimRow}
    (hr : r ∈ time_dim sales) :
    r = mkTimeRow r.date ∧ r.date ∈ sorted_dates sales := by
  unfold time_dim at hr
  obtain ⟨d, hd, rfl⟩ := List.mem_map.mp hr
  exact ⟨rfl, hd⟩

theorem valid_of_mem_sorted_dates {sales : List SalesRecord} {d : Date}
    (hvalid : ∀ s ∈ sales, (∀ e, s.orderDate = some e → e.Valid) ∧
      (∀ e, s.deliveryDate = some e → e.Valid))
    (hd : d ∈ sorted_dates sales) : d.Valid := by
  obtain ⟨s, hs, h | h⟩ := mem_sorted_dates.mp hd
  · exact (hvalid s hs).1 d h
  · exact (hvalid s hs).2 d h

/-- C5: In every produced time dimension (of a sales table whose dates are
pandas-representable calendar dates), `TimeID` is a pure function of
`Date` — the zero-padded `YYYYMMDD` rendering — is injective over the
emitted rows, and round-trips: parsing a row's `TimeID` back as a
`YYYYMMDD` date yields that row's `Date`. -/
theorem timeID_pure_injective_roundtrip (sales : List SalesRecord)
    (hvalid : ∀ s ∈ sales, (∀ e, s.orderDate = some e → e.Valid) ∧
      (∀ e, s.deliveryDate = some e → e.Valid)) :
    ∀ r1 ∈ time_dim sales, ∀ r2 ∈ time_dim sales,
      r1.timeID = r1.date.timeID ∧
      (r1.date = r2.date → r1.timeID = r2.timeID) ∧
      (r1.timeID = r2.timeID → r1.date = r2.date) ∧
      parseTimeID r1.timeID = some r1.date := by
  intro r1 h1 r2 h2
  obtain ⟨he1, hd1⟩ := mem_time_dim h1
  obtain ⟨he2, hd2⟩ := mem_time_dim h2
  have hv1 : r1.date.Valid := valid_of_mem_sorted_dates hvalid hd1
  have hv2 : r2.date.Valid := valid_of_mem_sorted_dates hvalid hd2
  have ht1 : r1.timeID = r1.date.timeID := congrArg TimeDimRow.timeID he1
  have ht2 : r2.timeID = r2.date.timeID := congrArg TimeDimRow.timeID he2
  have hrt1 : parseTimeID r1.timeID = some r1.date := by
    rw [ht1]; exact parseTimeID_timeID hv1
  have hrt2 : parseTimeID r2.timeID = some r2.date := by
    rw [ht2]; exact parseTimeID_timeID hv2
  refine ⟨ht1, fun hdd => by rw [ht1, ht2, hdd], fun he => ?_, hrt1⟩
  have := hrt1.symm.trans ((congrArg parseTimeID he).trans hrt2)
  exact Option.some.inj this

/-! ## The run as a whole -/

/-- C6: For every input batch in which at least one of the five required
files is absent, the run raises `MissingInputError` (`FileNotFoundError`
in the source) naming the first absent file — the loader loop raises
before any transformation — and no output artifact is produced or
delivered: the top-level handler records the error and uploads nothing. -/
theorem missing_input_aborts (b : Bucket)
    (h : ∃ f ∈ file_paths, b.has f = false) :
    ∃ f ∈ file_paths, b.has f = false ∧
      runETL b = Except.error (EtlError.missingInput f) ∧
      ∃ r, etl_pipeline b = Except.ok r ∧ r.uploaded = none ∧
        r.loggedError = some (EtlError.missingInput f) := by
  obtain ⟨c, p, s, mc, dl⟩ := b
  cases c with
  | none =>
    exact ⟨"Customer.csv", by decide, rfl, rfl, _, rfl, rfl, rfl⟩
  | some tc =>
  cases p with
  | none =>
    exact ⟨"Product.csv", by decide, rfl, rfl, _, rfl, rfl, rfl⟩
  | some tp =>
  cases s with
  | none =>
    exact ⟨"Sales.csv", by decide, rfl, rfl, _, rfl, rfl, rfl⟩
  | some ts =>
  cases mc with
  | none =>
    exact ⟨"MarketCampaign.csv", by decide, rfl, rfl, _, rfl, rfl, rfl⟩
  | some tmc =>
  cases dl with
  | none =>
    exact ⟨"Delivery.csv", by decide, rfl, rfl, _, rfl, rfl, rfl⟩
  | some tdl =>
    exfalso
    obtain ⟨f, hf, habs⟩ := h
    simp only [file_paths, List.mem_cons, List.not_mem_nil, or_false] at hf
    rcases hf with rfl | rfl | rfl | rfl | rfl <;> cases habs

/-- C8: For every input batch (with all five files present), the Customer,
Product, Campaign and Delivery input tables appear in the output dataset —
under the names `Customer_Dimension`, `Product_Dimension`,
`Campaign_Dimension`, `Delivery_Dimension` — completely unchanged: same
rows, same columns, same order; the assembler applies no transformation to
them. -/
theorem dimensions_pass_through (b : Bucket) (c p mc dl : RawTable)
    (s : List SalesRecord) (hc : b.customer = some c) (hp : b.product = some p)
    (hs : b.sales = some s) (hmc : b.marketCampaign = some mc)
    (hdl : b.delivery = some dl) :
    ∃ out, runETL b = Except.ok out ∧
      out.lookup "Customer_Dimension" = some c ∧
      out.lookup "Product_Dimension" = some p ∧
      out.lookup "Campaign_Dimension" = some mc ∧
      out.lookup "Delivery_Dimension" = some dl := by
  obtain ⟨bc, bp, bs, bmc, bdl⟩ := b
  cases hc; cases hp; cases hs; cases hmc; cases hdl
  refine ⟨_, rfl, ?_, ?_, ?_, ?_⟩ <;> rfl

/-- C10: For every input, including every failing one, the `etl_pipeline`
entry point returns normally to its caller: every raised error is caught
by the top-level handler (line 132) and only logged, so no error and no
distinct error code ever propagates out of the function. -/
theorem etl_pipeline_always_returns (b : Bucket) :
    ∃ r, etl_pipeline b = Except.ok r ∧
      ∀ e, runETL b = Except.error e →
        r.uploaded = none ∧ r.loggedError = some e := by
  cases h : runETL b with
  | ok out =>
    refine ⟨_, by rw [etl_pipeline, h], fun e he => ?_⟩
    cases he
  | error e =>
    refine ⟨_, by rw [etl_pipeline, h], fun e' he' => ?_⟩
    cases he'
    exact ⟨rfl, rfl⟩

/-! ## Witnesses: the theorems applied to the worked example of spec §8 -/

/-- The C2 theorem applied at the first line item of sale 1. -/
theorem fact_group_aggregate_values_witness :
    (factOf exampleSales exRec1).totalSaleAmount =
      some ((salesGroup exampleSales
        (factOf exampleSales exRec1).salesID).filterMap
        (fun s => s.saleAmount)).sum ∧
    (factOf exampleSales exRec1).totalDiscountApplied =
      some (((salesGroup exampleSales
        (factOf exampleSales exRec1).salesID).filterMap
        (fun s => s.discountApplied)).sum /
        (((salesGroup exampleSales
          (factOf exampleSales exRec1).salesID).length : Nat) : ℚ)) ∧
    (factOf exampleSales exRec1).totalDeliveryFee =
      some ((salesGroup exampleSales
        (factOf exampleSales exRec1).salesID).filterMap
        (fun s => s.deliveryFee)).sum :=
  @fact_group_aggregate_values exampleSales (factOf exampleSales exRec1)
    (by rw [sales_fact_table_eq_map]
        exact List.mem_map_of_mem _ (List.mem_cons_self _ _))
    (by decide)

/-- The C3 theorem applied at the two line items of sale 1. -/
theorem fact_rows_same_sale_same_aggregates_witness :
    (factOf exampleSales exRec1).totalSaleAmount =
      (factOf exampleSales exRec2).totalSaleAmount ∧
    (factOf exampleSales exRec1).totalDiscountApplied =
      (factOf exampleSales exRec2).totalDiscountApplied ∧
    (factOf exampleSales exRec1).totalDeliveryFee =
      (factOf exampleSales exRec2).totalDeliveryFee :=
  @fact_rows_same_sale_same_aggregates exampleSales
    (factOf exampleSales exRec1) (factOf exampleSales exRec2)
    (by rw [sales_fact_table_eq_map]
        exact List.mem_map_of_mem _ (List.mem_cons_self _ _))
    (by rw [sales_fact_table_eq_map]
        exact List.mem_map_of_mem _
          (List.mem_cons_of_mem _ (List.mem_cons_self _ _)))
    rfl

/-- The C7 theorem applied at a group with missing measure cells. -/
theorem fact_null_measures_witness :
    (factOf exampleSalesNull nRecA).totalSaleAmount =
      some ((salesGroup exampleSalesNull
        (factOf exampleSalesNull nRecA).salesID).map
        (fun s => s.saleAmount.getD 0)).sum ∧
    (factOf exampleSalesNull nRecA).totalDeliveryFee =
      some ((salesGroup exampleSalesNull
        (factOf exampleSalesNull nRecA).salesID).map
        (fun s => s.deliveryFee.getD 0)).sum ∧
    (factOf exampleSalesNull nRecA).totalDiscountApplied =
      (if ((salesGroup exampleSalesNull
            (factOf exampleSalesNull nRecA).salesID).filterMap
            (fun s => s.discountApplied)).isEmpty
       then none
       else some (((salesGroup exampleSalesNull
            (factOf exampleSalesNull nRecA).salesID).filterMap
            (fun s => s.discountApplied)).sum /
          (((salesGroup exampleSalesNull
            (factOf exampleSalesNull nRecA).salesID).countP
            (fun s => (s.discountApplied).isSome) : Nat) : ℚ))) :=
  @fact_null_measures exampleSalesNull (factOf exampleSalesNull nRecA)
    (by rw [sales_fact_table_eq_map]
        exact List.mem_map_of_mem _ (List.mem_cons_self _ _))

/-- The C5 theorem applied at the two rows of the example time dimension. -/
theorem timeID_pure_injective_roundtrip_witness :
    (mkTimeRow ⟨2024, 1, 1⟩).timeID = (mkTimeRow ⟨2024, 1, 1⟩).date.timeID ∧
    ((mkTimeRow ⟨2024, 1, 1⟩).date = (mkTimeRow ⟨2024, 1, 2⟩).date →
      (mkTimeRow ⟨2024, 1, 1⟩).timeID = (mkTimeRow ⟨2024, 1, 2⟩).timeID) ∧
    ((mkTimeRow ⟨2024, 1, 1⟩).timeID = (mkTimeRow ⟨2024, 1, 2⟩).timeID →
      (mkTimeRow ⟨2024, 1, 1⟩).date = (mkTimeRow ⟨2024, 1, 2⟩).date) ∧
    parseTimeID (mkTimeRow ⟨2024, 1, 1⟩).timeID =
      some (mkTimeRow ⟨2024, 1, 1⟩).date :=
  timeID_pure_injective_roundtrip exampleSales
    (by intro s hs
        simp only [exampleSales, List.mem_cons, List.not_mem_nil,
          or_false] at hs
        rcases hs with rfl | rfl | rfl <;>
          refine ⟨fun e he => ?_, fun e he => ?_⟩ <;> cases he <;> decide)
    (mkTimeRow ⟨2024, 1, 1⟩)
    (List.mem_map_of_mem _ (mem_sorted_dates.mpr
      ⟨exRec2, List.mem_cons_of_mem _ (List.mem_cons_self _ _), Or.inl rfl⟩))
    (mkTimeRow ⟨2024, 1, 2⟩)
    (List.mem_map_of_mem _ (mem_sorted_dates.mpr
      ⟨exRec1, List.mem_cons_self _ _, Or.inl rfl⟩))

/-- The C6 theorem applied at a bucket with `Sales.csv` absent. -/
theorem missing_input_aborts_witness :
    ∃ f ∈ file_paths, exampleBucketMissing.has f = false ∧
      runETL exampleBucketMissing = Except.error (EtlError.missingInput f) ∧
      ∃ r, etl_pipeline exampleBucketMissing = Except.ok r ∧
        r.uploaded = none ∧
        r.loggedError = some (EtlError.missingInput f) :=
  missing_input_aborts exampleBucketMissing (by decide)

/-- The C8 theorem applied at a complete bucket. -/
theorem dimensions_pass_through_witness :
    ∃ out, runETL exampleBucket = Except.ok out ∧
      out.lookup "Customer_Dimension" = some [[("CustomerID", Value.str "C1")]] ∧
      out.lookup "Product_Dimension" = some [[("ProductID", Value.str "P1")]] ∧
      out.lookup "Campaign_Dimension" = some [[("CampaignID", Value.str "K1")]] ∧
      out.lookup "Delivery_Dimension" = some [[("DeliveryID", Value.str "D1")]] :=
  dimensions_pass_through exampleBucket
    [[("CustomerID", Value.str "C1")]] [[("ProductID", Value.str "P1")]]
    [[("CampaignID", Value.str "K1")]] [[("DeliveryID", Value.str "D1")]]
    exampleSales rfl rfl rfl rfl rfl
